import Mathlib

/-!
Verification development for the highway mileage-marker lookup tool
(src/highway_precision.py).

The Python source is shallowly embedded below:
* `parsePlacemark` / `parse_kml_content` embed the placemark parser
  (lines 35-54 of the source);
* `load_all_kml_data` embeds the loader (lines 23-69), with file reading and
  the BeautifulSoup placemark extraction abstracted to a list of placemark
  records per file, and the streamlit error/warning calls recorded as
  messages;
* `dist_sq`, `idxmin`, `find_nearest_row` and `find_nearest_point` embed the
  nearest-marker lookup (lines 71-83); `idxmin` models the pandas
  `Series.idxmin`, which returns the first index attaining the minimum;
* `geodesicMeters` models the third-party geopy `geodesic(...).meters` call.

Coordinates are embedded as exact rationals (the Python code computes with
IEEE doubles); the geodesic distance is a real number.
-/

namespace HighwayPrecision

/-- A row of the loaded marker table: columns `name`, `lat`, `lon`, `source`
of the pandas DataFrame built by `load_all_kml_data`. -/
structure Marker where
  name : String
  lat : ℚ
  lon : ℚ
  source : String
deriving DecidableEq, Repr

instance : Inhabited Marker := ⟨⟨"", 0, 0, ""⟩⟩

/-- A row produced by `parse_kml_content` before the `source` column is
added: the record with keys name, lat and lon built at line 51. -/
structure Row where
  name : String
  lat : ℚ
  lon : ℚ
deriving DecidableEq, Repr

/-- A placemark as extracted by BeautifulSoup: the text of its `name`
element if present, and the text of its `coordinates` element if present. -/
structure Placemark where
  name : Option String
  coordinates : Option String
deriving DecidableEq, Repr

/-- Python `str.split(sep)` for a single-character separator, on character
lists: empty pieces are kept, and the empty string yields one empty piece. -/
def pySplitOn (sep : Char → Bool) : List Char → List (List Char)
  | [] => [[]]
  | c :: cs =>
    match pySplitOn sep cs with
    | [] => [[]]
    | t :: ts => if sep c then [] :: t :: ts else (c :: t) :: ts

/-- Python `str.strip()`: drop whitespace from both ends. -/
def pyStrip (cs : List Char) : List Char :=
  ((cs.dropWhile Char.isWhitespace).reverse.dropWhile Char.isWhitespace).reverse

/-- Python `str.split()` with no argument: whitespace-run separated tokens,
with no empty tokens. -/
def pySplitWS (cs : List Char) : List (List Char) :=
  (pySplitOn Char.isWhitespace cs).filter (fun t => !t.isEmpty)

/-- Numeric value of a list of decimal digit characters (most significant
first). -/
def digitsVal (cs : List Char) : ℕ :=
  cs.foldl (fun acc c => 10 * acc + (c.toNat - 48)) 0

/-- Modelled from the spec: the Python builtin `float` (library code, not in
src/) applied to the comma-separated components of a coordinate tuple. The
spec says latitude/longitude are decimal-degree values parsed from a
coordinate pair, so the model accepts an optionally signed decimal literal
(digits, optionally followed by a point and digits) and fails on anything
else; failure models the `ValueError` caught at line 52. -/
def pyFloatCore (cs : List Char) : Option ℚ :=
  let intPart := cs.takeWhile Char.isDigit
  let rest := cs.dropWhile Char.isDigit
  match rest with
  | [] => if intPart.isEmpty then none else some (mkRat (Int.ofNat (digitsVal intPart)) 1)
  | '.' :: frac =>
    if frac.all Char.isDigit && !(intPart.isEmpty && frac.isEmpty) then
      some (mkRat (Int.ofNat (digitsVal intPart * 10 ^ frac.length + digitsVal frac))
        (10 ^ frac.length))
    else none
  | _ => none

/-- Modelled from the spec: signed decimal literals for `float`, with the
surrounding-whitespace tolerance of the Python builtin. -/
def pyFloat (cs : List Char) : Option ℚ :=
  match pyStrip cs with
  | '-' :: rest => (pyFloatCore rest).map (fun q => -q)
  | '+' :: rest => pyFloatCore rest
  | rest => pyFloatCore rest

/-- One iteration of the placemark loop of `parse_kml_content`
(lines 40-53): default name `未命名`, the first whitespace-separated tuple
of the coordinates text, its first comma component as longitude and second
as latitude; `none` when the placemark is skipped (missing coordinates tag,
empty coordinates text, fewer than two comma components, or a failing
float conversion). -/
def parsePlacemark (p : Placemark) : Option Row :=
  let name := p.name.getD "未命名"
  match p.coordinates with
  | none => none
  | some ct =>
    match pySplitWS (pyStrip ct.data) with
    | [] => none
    | first :: _ =>
      match pySplitOn (fun c => c = ',') first with
      | p0 :: p1 :: _ =>
        match pyFloat p0, pyFloat p1 with
        | some lon, some lat => some ⟨name, lat, lon⟩
        | _, _ => none
      | _ => none

/-- Embedding of `parse_kml_content` (lines 35-54): the rows of the successfully parsed
placemarks, in order. -/
def parse_kml_content (placemarks : List Placemark) : List Row :=
  placemarks.filterMap parsePlacemark

/-- A KML file as seen by the loader: its path, and `some` list of
placemarks when the file can be read and parsed by BeautifulSoup, `none`
when reading it raises (the `except` of line 64). -/
structure KmlFile where
  path : String
  content : Option (List Placemark)

/-- Embedding of `os.path.basename`: the part of the path after the last slash. -/
def basename (p : String) : String :=
  String.mk ((pySplitOn (fun c => c = '/') p.data).getLastD p.data)

/-- The streamlit messages the loader can emit: the error of line 30 when no
KML file is found, and the warning of line 65 for an unreadable file. -/
inductive Msg where
  | errNoFiles : Msg
  | warnUnreadable : String → Msg
deriving DecidableEq, Repr

/-- The loop body of lines 56-65 for one file: the tagged DataFrame appended
to `all_data` (if any), and the warning emitted (if any). A readable file
whose parse yields no rows contributes nothing (the guard of line 61). -/
def fileEntry (f : KmlFile) : Option (List Marker) × Option Msg :=
  match f.content with
  | none => (none, some (Msg.warnUnreadable (basename f.path)))
  | some pls =>
    let rows := parse_kml_content pls
    if rows.isEmpty then (none, none)
    else (some (rows.map fun r => ⟨r.name, r.lat, r.lon, basename f.path⟩), none)

/-- Embedding of `load_all_kml_data` (lines 23-69) over the globbed file list: `none`
with an error when no file is found, otherwise the concatenation of the
per-file tables when at least one file contributed rows, and `none`
otherwise; the second component records the messages emitted. -/
def load_all_kml_data (files : List KmlFile) : Option (List Marker) × List Msg :=
  if files.isEmpty then (none, [Msg.errNoFiles])
  else
    let results := files.map fileEntry
    let all_data := results.filterMap Prod.fst
    let msgs := results.filterMap Prod.snd
    if all_data.isEmpty then (none, msgs) else (some all_data.flatten, msgs)

/-- The two top-level outcomes of the module (lines 89-91 and 193-194):
either the fatal error panel with no dataset, or the interactive app over
the loaded dataset. -/
inductive AppOutcome where
  | fatalError : AppOutcome
  | ready : List Marker → AppOutcome
deriving DecidableEq, Repr

/-- Module top level: `df_all = load_all_kml_data()` and the
`if df_all is not None` branch; a `None` result surfaces the fatal
`st.error` of line 194 and no dataset is used. -/
def appOutcome (files : List KmlFile) : AppOutcome :=
  match (load_all_kml_data files).1 with
  | none => AppOutcome.fatalError
  | some df => AppOutcome.ready df

/-- The per-row quantity of line 75: `dist_sq = diff_lat**2 + diff_lon**2`
in degree-space. -/
def dist_sq (m : Marker) (u_lat u_lon : ℚ) : ℚ :=
  (m.lat - u_lat) * (m.lat - u_lat) + (m.lon - u_lon) * (m.lon - u_lon)

/-- pandas `Series.idxmin` over a positional-index series: the first index
attaining the minimum value. -/
def idxmin : List ℚ → ℕ
  | [] => 0
  | x :: xs =>
    match xs with
    | [] => 0
    | _ :: _ => if x ≤ xs.getD (idxmin xs) 0 then 0 else idxmin xs + 1

/-- The selection part of `find_nearest_point` (lines 73-77):
the row lookup at the index of the minimal dist_sq value (line 77).
On an empty table the pandas `idxmin` raises in
Python; here the lookup returns `none`. -/
def find_nearest_row (df : List Marker) (u_lat u_lon : ℚ) : Option Marker :=
  df.get? (idxmin (df.map fun m => dist_sq m u_lat u_lon))

/-- Degrees to radians. -/
noncomputable def degToRad (x : ℝ) : ℝ := x * (Real.pi / 180)

/-- Mean earth radius in meters. -/
def earthRadiusM : ℝ := 6371009

/-- Modelled from the spec: the geopy `geodesic(a, b).meters` call of
line 81 (library code, not in src/). The spec glossary defines geodesic
distance as the shortest surface distance between two points on an
ellipsoidal earth model; it is modelled as the shortest surface distance on
a round earth of mean radius: the central angle between the two points
(spherical law of cosines) times the radius, with points given as
(latitude, longitude) pairs in decimal degrees as in the source. -/
noncomputable def geodesicMeters (a b : ℝ × ℝ) : ℝ :=
  earthRadiusM * Real.arccos
    (Real.sin (degToRad a.1) * Real.sin (degToRad b.1) +
      Real.cos (degToRad a.1) * Real.cos (degToRad b.1) *
        Real.cos (degToRad a.2 - degToRad b.2))

/-- Embedding of `find_nearest_point` (lines 71-83): the row selected by squared
degree-distance together with the geodesic distance in meters from the
query point to it (`geodesic(user_pt, highway_pt).meters`). -/
noncomputable def find_nearest_point (df : List Marker) (u_lat u_lon : ℚ) :
    Option (Marker × ℝ) :=
  (find_nearest_row df u_lat u_lon).map fun nearest_row =>
    (nearest_row,
      geodesicMeters ((u_lat : ℝ), (u_lon : ℝ))
        ((nearest_row.lat : ℝ), (nearest_row.lon : ℝ)))

/-!
Helper lemmas about the selection index `idxmin`.
-/

/-- Unfolding equation for `idxmin` on a list with at least two entries. -/
theorem idxmin_cons_cons (x y : ℚ) (ys : List ℚ) :
    idxmin (x :: y :: ys) =
      if x ≤ (y :: ys).getD (idxmin (y :: ys)) 0 then 0 else idxmin (y :: ys) + 1 := rfl

/-- The index returned by `idxmin` is in range for a non-empty list. -/
theorem idxmin_lt_length (l : List ℚ) (h : l ≠ []) : idxmin l < l.length := by
  induction l with
  | nil => exact absurd rfl h
  | cons x xs ih =>
    cases xs with
    | nil => simp [idxmin]
    | cons y ys =>
      rw [idxmin_cons_cons]
      split
      · simp
      · have := ih (by simp)
        simpa [Nat.succ_lt_succ_iff] using this

/-- The value at the `idxmin` index is a minimum of the list. -/
theorem getD_idxmin_le (l : List ℚ) (j : ℕ) (hj : j < l.length) :
    l.getD (idxmin l) 0 ≤ l.getD j 0 := by
  induction l generalizing j with
  | nil => simp at hj
  | cons x xs ih =>
    cases xs with
    | nil =>
      have : j = 0 := by simpa using Nat.lt_one_iff.mp (by simpa using hj)
      subst this
      simp [idxmin]
    | cons y ys =>
      rw [idxmin_cons_cons]
      split
      · rename_i hx
        cases j with
        | zero => simp
        | succ k =>
          have hk : k < (y :: ys).length := by simpa [Nat.succ_lt_succ_iff] using hj
          have := ih k hk
          simp only [List.getD_cons_succ, List.getD_cons_zero]
          exact le_trans hx this
      · rename_i hx
        cases j with
        | zero =>
          simp only [List.getD_cons_succ, List.getD_cons_zero]
          exact le_of_lt (lt_of_not_le hx)
        | succ k =>
          have hk : k < (y :: ys).length := by simpa [Nat.succ_lt_succ_iff] using hj
          simpa using ih k hk

/-- Entries strictly before the `idxmin` index are strictly larger: the
minimum index is the first one attaining the minimum. -/
theorem getD_idxmin_first (l : List ℚ) (j : ℕ) (hj : j < idxmin l) :
    l.getD (idxmin l) 0 < l.getD j 0 := by
  induction l generalizing j with
  | nil => simp [idxmin] at hj
  | cons x xs ih =>
    cases xs with
    | nil => simp [idxmin] at hj
    | cons y ys =>
      rw [idxmin_cons_cons] at hj ⊢
      split
      · rename_i hx
        rw [if_pos hx] at hj
        exact absurd hj (Nat.not_lt_zero j)
      · rename_i hx
        rw [if_neg hx] at hj
        cases j with
        | zero =>
          simp only [List.getD_cons_succ, List.getD_cons_zero]
          exact lt_of_not_le hx
        | succ k =>
          have hk : k < idxmin (y :: ys) := Nat.lt_of_succ_lt_succ hj
          simpa using ih k hk

/-- Value of the mapped distance column at an in-range index. -/
theorem getD_map_dist (df : List Marker) (u_lat u_lon : ℚ) (j : ℕ) (hj : j < df.length) :
    (df.map fun m => dist_sq m u_lat u_lon).getD j 0 =
      dist_sq (df.getD j default) u_lat u_lon := by
  induction df generalizing j with
  | nil => simp at hj
  | cons x xs ih =>
    cases j with
    | zero => simp
    | succ k =>
      have hk : k < xs.length := by simpa [Nat.succ_lt_succ_iff] using hj
      simpa using ih k hk

/-- Full characterisation of the selection: `find_nearest_row` returns the
first row attaining the minimum of the `dist_sq` column. -/
theorem find_nearest_row_spec (df : List Marker) (u_lat u_lon : ℚ) (hne : df ≠ []) :
    ∃ i, i < df.length ∧
      find_nearest_row df u_lat u_lon = some (df.getD i default) ∧
      (∀ j, j < df.length →
        dist_sq (df.getD i default) u_lat u_lon ≤ dist_sq (df.getD j default) u_lat u_lon) ∧
      (∀ j, j < i →
        dist_sq (df.getD i default) u_lat u_lon < dist_sq (df.getD j default) u_lat u_lon) := by
  set l := df.map fun m => dist_sq m u_lat u_lon with hl
  have hlne : l ≠ [] := by
    simp only [hl, ne_eq, List.map_eq_nil_iff]
    exact hne
  have hlen : l.length = df.length := by simp [hl]
  have hi : idxmin l < df.length := hlen ▸ idxmin_lt_length l hlne
  refine ⟨idxmin l, hi, ?_, ?_, ?_⟩
  · show df.get? (idxmin l) = _
    rw [List.get?_eq_get hi, List.getD_eq_get df default hi]
  · intro j hj
    have := getD_idxmin_le l j (hlen ▸ hj)
    rwa [getD_map_dist df u_lat u_lon _ hi, getD_map_dist df u_lat u_lon j hj] at this
  · intro j hj
    have hjlen : j < df.length := lt_trans hj hi
    have := getD_idxmin_first l j hj
    rwa [getD_map_dist df u_lat u_lon _ hi, getD_map_dist df u_lat u_lon j hjlen] at this

/-- A returned row is a member of the table and minimises the squared
degree-distance over the table. -/
theorem find_nearest_row_some (df : List Marker) (u_lat u_lon : ℚ) (r : Marker)
    (hr : find_nearest_row df u_lat u_lon = some r) :
    r ∈ df ∧ ∀ m ∈ df, dist_sq r u_lat u_lon ≤ dist_sq m u_lat u_lon := by
  have hne : df ≠ [] := by
    rintro rfl
    simp [find_nearest_row, idxmin] at hr
  obtain ⟨i, hi, heq, hmin, -⟩ := find_nearest_row_spec df u_lat u_lon hne
  rw [heq] at hr
  obtain rfl : df.getD i default = r := by injection hr
  constructor
  · rw [List.getD_eq_get df default hi]
    exact List.get_mem df _ _
  · intro m hm
    obtain ⟨⟨j, hj⟩, rfl⟩ := List.mem_iff_get.mp hm
    have := hmin j hj
    rwa [List.getD_eq_get df default hj] at this

/-- If one index has strictly smaller `dist_sq` than every other index, the
selection returns exactly the row at that index. -/
theorem find_nearest_row_of_unique_min (df : List Marker) (u_lat u_lon : ℚ)
    (i : ℕ) (hi : i < df.length)
    (h : ∀ j, j < df.length → j ≠ i →
      dist_sq (df.getD i default) u_lat u_lon < dist_sq (df.getD j default) u_lat u_lon) :
    find_nearest_row df u_lat u_lon = some (df.getD i default) := by
  have hne : df ≠ [] := by
    rintro rfl
    simp at hi
  obtain ⟨k, hk, heq, hmin, -⟩ := find_nearest_row_spec df u_lat u_lon hne
  by_cases hki : k = i
  · rwa [hki] at heq
  · have h1 := h k hk hki
    have h2 := hmin i hi
    exact absurd (lt_of_le_of_lt h2 h1) (lt_irrefl _)

/-- C1: for every non-empty marker table and every query latitude/longitude,
`find_nearest_point` selects the marker minimising squared Euclidean
distance in degree-space between the query and the marker coordinates,
breaking ties by first occurrence in table order, and returns that marker
together with the (spec-modelled) geodesic surface distance in meters from
the query point to it. -/
theorem find_nearest_point_spec (df : List Marker) (u_lat u_lon : ℚ) (hne : df ≠ []) :
    ∃ i, i < df.length ∧
      find_nearest_point df u_lat u_lon =
        some (df.getD i default,
          geodesicMeters ((u_lat : ℝ), (u_lon : ℝ))
            (((df.getD i default).lat : ℝ), ((df.getD i default).lon : ℝ))) ∧
      (∀ j, j < df.length →
        dist_sq (df.getD i default) u_lat u_lon ≤ dist_sq (df.getD j default) u_lat u_lon) ∧
      (∀ j, j < i →
        dist_sq (df.getD i default) u_lat u_lon < dist_sq (df.getD j default) u_lat u_lon) := by
  obtain ⟨i, hi, heq, hmin, hfirst⟩ := find_nearest_row_spec df u_lat u_lon hne
  exact ⟨i, hi, by rw [find_nearest_point, heq]; rfl, hmin, hfirst⟩

/-- Witness for C1: a concrete two-row table and query. -/
theorem find_nearest_point_spec_witness :
    (([⟨"35K", 25, 121, "n1.kml"⟩, ⟨"36K", 26, 121, "n1.kml"⟩] : List Marker) ≠ []) ∧
    ∃ i, i < ([⟨"35K", 25, 121, "n1.kml"⟩, ⟨"36K", 26, 121, "n1.kml"⟩] : List Marker).length ∧
      find_nearest_point [⟨"35K", 25, 121, "n1.kml"⟩, ⟨"36K", 26, 121, "n1.kml"⟩] 25 121 =
        some (([⟨"35K", 25, 121, "n1.kml"⟩, ⟨"36K", 26, 121, "n1.kml"⟩] : List Marker).getD i default,
          geodesicMeters (((25 : ℚ) : ℝ), ((121 : ℚ) : ℝ))
            (((([⟨"35K", 25, 121, "n1.kml"⟩, ⟨"36K", 26, 121, "n1.kml"⟩] : List Marker).getD i default).lat : ℝ),
              ((([⟨"35K", 25, 121, "n1.kml"⟩, ⟨"36K", 26, 121, "n1.kml"⟩] : List Marker).getD i default).lon : ℝ))) ∧
      (∀ j, j < ([⟨"35K", 25, 121, "n1.kml"⟩, ⟨"36K", 26, 121, "n1.kml"⟩] : List Marker).length →
        dist_sq (([⟨"35K", 25, 121, "n1.kml"⟩, ⟨"36K", 26, 121, "n1.kml"⟩] : List Marker).getD i default) 25 121 ≤
          dist_sq (([⟨"35K", 25, 121, "n1.kml"⟩, ⟨"36K", 26, 121, "n1.kml"⟩] : List Marker).getD j default) 25 121) ∧
      (∀ j, j < i →
        dist_sq (([⟨"35K", 25, 121, "n1.kml"⟩, ⟨"36K", 26, 121, "n1.kml"⟩] : List Marker).getD i default) 25 121 <
          dist_sq (([⟨"35K", 25, 121, "n1.kml"⟩, ⟨"36K", 26, 121, "n1.kml"⟩] : List Marker).getD j default) 25 121) :=
  ⟨by simp, find_nearest_point_spec [⟨"35K", 25, 121, "n1.kml"⟩, ⟨"36K", 26, 121, "n1.kml"⟩] 25 121 (by simp)⟩

/-- C3: for all non-empty marker tables and all query coordinates, the
marker returned by `find_nearest_point` is a member of that table: its
label, latitude, longitude and source equal those of some row of the input
table. -/
theorem find_nearest_point_returns_member (df : List Marker) (u_lat u_lon : ℚ) (hne : df ≠ []) :
    ∃ (r : Marker) (d : ℝ), find_nearest_point df u_lat u_lon = some (r, d) ∧
      ∃ m ∈ df, r.name = m.name ∧ r.lat = m.lat ∧ r.lon = m.lon ∧ r.source = m.source := by
  obtain ⟨i, hi, heq, -, -⟩ := find_nearest_point_spec df u_lat u_lon hne
  refine ⟨df.getD i default, _, heq, df.getD i default, ?_, rfl, rfl, rfl, rfl⟩
  rw [List.getD_eq_get df default hi]
  exact List.get_mem df _ _

/-- Witness for C3: a concrete one-row table. -/
theorem find_nearest_point_returns_member_witness :
    ∃ (r : Marker) (d : ℝ),
      find_nearest_point [⟨"7K", 24, 120, "n3.kml"⟩] 23 119 = some (r, d) ∧
      ∃ m ∈ ([⟨"7K", 24, 120, "n3.kml"⟩] : List Marker),
        r.name = m.name ∧ r.lat = m.lat ∧ r.lon = m.lon ∧ r.source = m.source :=
  find_nearest_point_returns_member [⟨"7K", 24, 120, "n3.kml"⟩] 23 119 (by simp)

/-- C5: on an empty marker table `find_nearest_point` produces no result
(the pandas `idxmin` of an empty column raises in the source; the embedded
lookup is `none`). -/
theorem find_nearest_point_empty_table (u_lat u_lon : ℚ) :
    find_nearest_point [] u_lat u_lon = none := rfl

/-- C4: given three markers and a query strictly nearer (in the squared
degree-space distance the lookup ranks by) to one of them than to the other
two, `find_nearest_point` selects that marker. -/
theorem find_nearest_point_three_markers (a b c : Marker) (u_lat u_lon : ℚ)
    (i : ℕ) (hi : i < 3)
    (h : ∀ j, j < 3 → j ≠ i →
      dist_sq (([a, b, c] : List Marker).getD i default) u_lat u_lon <
        dist_sq (([a, b, c] : List Marker).getD j default) u_lat u_lon) :
    ∃ d : ℝ, find_nearest_point [a, b, c] u_lat u_lon =
      some (([a, b, c] : List Marker).getD i default, d) := by
  have hrow := find_nearest_row_of_unique_min [a, b, c] u_lat u_lon i (by simpa using hi)
    (by simpa using h)
  exact ⟨_, by rw [find_nearest_point, hrow]; rfl⟩

/-- Witness for C4: three concrete markers, the query nearest the second. -/
theorem find_nearest_point_three_markers_witness :
    ∃ d : ℝ, find_nearest_point [⟨"1K", 20, 120, "s"⟩, ⟨"2K", 24, 121, "s"⟩, ⟨"3K", 28, 122, "s"⟩] 24 121 =
      some (([⟨"1K", 20, 120, "s"⟩, ⟨"2K", 24, 121, "s"⟩, ⟨"3K", 28, 122, "s"⟩] : List Marker).getD 1 default, d) :=
  find_nearest_point_three_markers ⟨"1K", 20, 120, "s"⟩ ⟨"2K", 24, 121, "s"⟩ ⟨"3K", 28, 122, "s"⟩
    24 121 1 (by decide) (by with_unfolding_all decide)

/-- The modelled geodesic distance from a point to itself is zero. -/
theorem geodesicMeters_self (x y : ℝ) : geodesicMeters (x, y) (x, y) = 0 := by
  unfold geodesicMeters
  rw [show degToRad ((x, y).2) - degToRad ((x, y).2) = 0 from sub_self _, Real.cos_zero, mul_one]
  rw [show Real.sin (degToRad ((x, y).1)) * Real.sin (degToRad ((x, y).1)) +
      Real.cos (degToRad ((x, y).1)) * Real.cos (degToRad ((x, y).1)) = 1 from by
    rw [← Real.sin_sq_add_cos_sq (degToRad x)]; ring]
  rw [Real.arccos_one, mul_zero]

/-- C8: the geodesic distance computation is symmetric in its two point
arguments. -/
theorem geodesicMeters_symm (a b : ℝ × ℝ) : geodesicMeters a b = geodesicMeters b a := by
  unfold geodesicMeters
  rw [show degToRad b.2 - degToRad a.2 = -(degToRad a.2 - degToRad b.2) from by ring,
    Real.cos_neg]
  congr 1
  congr 1
  ring

/-- C7: if the query coincides with some marker of the table, the distance
returned by `find_nearest_point` is zero. -/
theorem coincident_query_distance_zero (df : List Marker) (u_lat u_lon : ℚ) (m : Marker)
    (hm : m ∈ df) (hlat : m.lat = u_lat) (hlon : m.lon = u_lon)
    (r : Marker) (d : ℝ) (h : find_nearest_point df u_lat u_lon = some (r, d)) :
    d = 0 := by
  unfold find_nearest_point at h
  cases hrow : find_nearest_row df u_lat u_lon with
  | none => rw [hrow] at h; simp at h
  | some r0 =>
    rw [hrow] at h
    simp only [Option.map] at h
    obtain ⟨hr0, hd⟩ : r0 = r ∧
        geodesicMeters ((u_lat : ℝ), (u_lon : ℝ)) ((r0.lat : ℝ), (r0.lon : ℝ)) = d := by
      constructor
      · exact congrArg Prod.fst (Option.some.inj h)
      · exact congrArg Prod.snd (Option.some.inj h)
    obtain ⟨hmem, hmin⟩ := find_nearest_row_some df u_lat u_lon r0 hrow
    have hzero : dist_sq m u_lat u_lon = 0 := by
      simp [dist_sq, hlat, hlon]
    have hle : dist_sq r0 u_lat u_lon ≤ 0 := hzero ▸ hmin m hm
    have hge : 0 ≤ dist_sq r0 u_lat u_lon :=
      add_nonneg (mul_self_nonneg _) (mul_self_nonneg _)
    have heq0 : dist_sq r0 u_lat u_lon = 0 := le_antisymm hle hge
    have h1 : (r0.lat - u_lat) * (r0.lat - u_lat) = 0 := by
      have := mul_self_nonneg (r0.lat - u_lat)
      have := mul_self_nonneg (r0.lon - u_lon)
      unfold dist_sq at heq0
      linarith
    have h2 : (r0.lon - u_lon) * (r0.lon - u_lon) = 0 := by
      have := mul_self_nonneg (r0.lat - u_lat)
      unfold dist_sq at heq0
      linarith
    have hlat0 : r0.lat = u_lat := sub_eq_zero.mp (mul_self_eq_zero.mp h1)
    have hlon0 : r0.lon = u_lon := sub_eq_zero.mp (mul_self_eq_zero.mp h2)
    rw [← hd, hlat0, hlon0]
    exact geodesicMeters_self _ _

/-- Witness for C7: a single marker, queried at its own coordinates. -/
theorem coincident_query_distance_zero_witness :
    geodesicMeters (((25 : ℚ) : ℝ), ((121 : ℚ) : ℝ)) (((25 : ℚ) : ℝ), ((121 : ℚ) : ℝ)) = 0 :=
  coincident_query_distance_zero [⟨"9K", 25, 121, "n1.kml"⟩] 25 121 ⟨"9K", 25, 121, "n1.kml"⟩
    (by simp) rfl rfl ⟨"9K", 25, 121, "n1.kml"⟩
    (geodesicMeters (((25 : ℚ) : ℝ), ((121 : ℚ) : ℝ)) (((25 : ℚ) : ℝ), ((121 : ℚ) : ℝ)))
    (by with_unfolding_all rfl)

/-- On the equator the modelled geodesic distance only depends on the
longitude difference angle. -/
theorem geodesic_equator (l1 l2 : ℝ) :
    geodesicMeters (0, l1) (0, l2) =
      earthRadiusM * Real.arccos (Real.cos (degToRad l1 - degToRad l2)) := by
  simp [geodesicMeters, degToRad]

/-- C2 counterexample: across the antimeridian the squared degree-distance
ranking disagrees with the geodesic ranking. With markers A at (0, -179)
and B at (0, 175) and the query at (0, 179), the lookup selects B, yet the
geodesic distance to A is strictly smaller than the geodesic distance to
B. -/
theorem proxy_selection_not_geodesic_argmin :
    (∃ d : ℝ, find_nearest_point [⟨"A", 0, -179, "w.kml"⟩, ⟨"B", 0, 175, "w.kml"⟩] 0 179 =
      some (⟨"B", 0, 175, "w.kml"⟩, d)) ∧
    geodesicMeters (((0 : ℚ) : ℝ), ((179 : ℚ) : ℝ)) (((0 : ℚ) : ℝ), ((-179 : ℚ) : ℝ)) <
      geodesicMeters (((0 : ℚ) : ℝ), ((179 : ℚ) : ℝ)) (((0 : ℚ) : ℝ), ((175 : ℚ) : ℝ)) := by
  constructor
  · exact ⟨_, by with_unfolding_all rfl⟩
  · rw [show ((0 : ℚ) : ℝ) = 0 from by norm_num, show ((179 : ℚ) : ℝ) = 179 from by norm_num,
      show ((-179 : ℚ) : ℝ) = -179 from by norm_num, show ((175 : ℚ) : ℝ) = 175 from by norm_num]
    rw [geodesic_equator, geodesic_equator]
    have hpi := Real.pi_pos
    rw [show degToRad 179 - degToRad (-179) = 2 * Real.pi - Real.pi / 90 from by
      unfold degToRad; ring]
    rw [show degToRad 179 - degToRad 175 = Real.pi / 45 from by unfold degToRad; ring]
    rw [Real.cos_two_pi_sub]
    rw [Real.arccos_cos (by positivity) (by linarith), Real.arccos_cos (by positivity) (by linarith)]
    have hR : (0 : ℝ) < earthRadiusM := by unfold earthRadiusM; norm_num
    exact mul_lt_mul_of_pos_left (by linarith) hR

/-- Composing `arccos` with `cos` gives the absolute value on `[-π, π]`. -/
theorem arccos_cos_abs (x : ℝ) (h : |x| ≤ Real.pi) : Real.arccos (Real.cos x) = |x| := by
  rcases le_or_lt 0 x with hx | hx
  · rw [abs_of_nonneg hx] at h ⊢
    exact Real.arccos_cos hx h
  · rw [abs_of_neg hx] at h ⊢
    rw [← Real.cos_neg]
    exact Real.arccos_cos (by linarith) h

/-- For two points on the same meridian with latitudes in range, the
modelled geodesic distance is the radius times the latitude-difference
angle. -/
theorem geodesic_same_lon (a b c : ℝ) (ha1 : -90 ≤ a) (ha2 : a ≤ 90)
    (hb1 : -90 ≤ b) (hb2 : b ≤ 90) :
    geodesicMeters (a, c) (b, c) = earthRadiusM * (|a - b| * (Real.pi / 180)) := by
  unfold geodesicMeters
  rw [show degToRad ((b, c).2) - degToRad ((b, c).2) = 0 from sub_self _]
  simp only [Real.cos_zero, mul_one]
  rw [show Real.sin (degToRad a) * Real.sin (degToRad b) +
      Real.cos (degToRad a) * Real.cos (degToRad b) =
      Real.cos (degToRad a - degToRad b) from by rw [Real.cos_sub]; ring]
  rw [show degToRad a - degToRad b = (a - b) * (Real.pi / 180) from by unfold degToRad; ring]
  have hpi := Real.pi_pos
  have h4 : |(a - b) * (Real.pi / 180)| = |a - b| * (Real.pi / 180) := by
    rw [abs_mul, abs_of_nonneg (by positivity : (0 : ℝ) ≤ Real.pi / 180)]
  have h5 : |(a - b) * (Real.pi / 180)| ≤ Real.pi := by
    rw [h4]
    have hab : |a - b| ≤ 180 := by
      rw [abs_le]
      constructor <;> linarith
    calc |a - b| * (Real.pi / 180) ≤ 180 * (Real.pi / 180) :=
          mul_le_mul_of_nonneg_right hab (by positivity)
      _ = Real.pi := by ring
  rw [arccos_cos_abs _ h5, h4]

/-- C2 amended: squared degree-distance is a valid ranking proxy for the
geodesic distance when all markers share the query longitude and latitudes
are in the valid range, so there the proxy-based selection is also a
geodesic-distance argmin; in general (see the antimeridian counterexample)
the two rankings disagree. -/
theorem proxy_selection_geodesic_argmin_same_lon (df : List Marker) (u_lat u_lon : ℚ)
    (r : Marker) (hq1 : -90 ≤ u_lat) (hq2 : u_lat ≤ 90)
    (hlat : ∀ m ∈ df, -90 ≤ m.lat ∧ m.lat ≤ 90)
    (hlon : ∀ m ∈ df, m.lon = u_lon)
    (hr : find_nearest_row df u_lat u_lon = some r) :
    ∀ m ∈ df,
      geodesicMeters ((u_lat : ℝ), (u_lon : ℝ)) ((r.lat : ℝ), (r.lon : ℝ)) ≤
        geodesicMeters ((u_lat : ℝ), (u_lon : ℝ)) ((m.lat : ℝ), (m.lon : ℝ)) := by
  obtain ⟨hmem, hmin⟩ := find_nearest_row_some df u_lat u_lon r hr
  intro m hm
  rw [geodesicMeters_symm _ ((r.lat : ℝ), (r.lon : ℝ)),
    geodesicMeters_symm _ ((m.lat : ℝ), (m.lon : ℝ))]
  rw [hlon r hmem, hlon m hm]
  obtain ⟨hr1, hr2⟩ := hlat r hmem
  obtain ⟨hm1, hm2⟩ := hlat m hm
  rw [geodesic_same_lon ((r.lat : ℝ)) ((u_lat : ℝ)) ((u_lon : ℝ))
    (by exact_mod_cast hr1) (by exact_mod_cast hr2) (by exact_mod_cast hq1)
    (by exact_mod_cast hq2)]
  rw [geodesic_same_lon ((m.lat : ℝ)) ((u_lat : ℝ)) ((u_lon : ℝ))
    (by exact_mod_cast hm1) (by exact_mod_cast hm2) (by exact_mod_cast hq1)
    (by exact_mod_cast hq2)]
  have hds := hmin m hm
  unfold dist_sq at hds
  rw [hlon r hmem, hlon m hm, sub_self, mul_zero, add_zero, add_zero] at hds
  have hdsR : ((r.lat : ℝ) - (u_lat : ℝ)) * ((r.lat : ℝ) - (u_lat : ℝ)) ≤
      ((m.lat : ℝ) - (u_lat : ℝ)) * ((m.lat : ℝ) - (u_lat : ℝ)) := by exact_mod_cast hds
  have habs : |(r.lat : ℝ) - (u_lat : ℝ)| ≤ |(m.lat : ℝ) - (u_lat : ℝ)| :=
    abs_le_iff_mul_self_le.mpr hdsR
  have hpi := Real.pi_pos
  have hR : (0 : ℝ) ≤ earthRadiusM := by unfold earthRadiusM; norm_num
  exact mul_le_mul_of_nonneg_left
    (mul_le_mul_of_nonneg_right habs (by positivity)) hR

/-- Witness for the amended C2: two markers on the query meridian, the
selected one geodesically no farther than the other. -/
theorem proxy_selection_geodesic_argmin_same_lon_witness :
    geodesicMeters (((12 : ℚ) : ℝ), ((121 : ℚ) : ℝ))
        ((((⟨"P", 10, 121, "s.kml"⟩ : Marker)).lat : ℝ),
          (((⟨"P", 10, 121, "s.kml"⟩ : Marker)).lon : ℝ)) ≤
      geodesicMeters (((12 : ℚ) : ℝ), ((121 : ℚ) : ℝ))
        ((((⟨"Q", 30, 121, "s.kml"⟩ : Marker)).lat : ℝ),
          (((⟨"Q", 30, 121, "s.kml"⟩ : Marker)).lon : ℝ)) :=
  proxy_selection_geodesic_argmin_same_lon
    [⟨"P", 10, 121, "s.kml"⟩, ⟨"Q", 30, 121, "s.kml"⟩] 12 121 ⟨"P", 10, 121, "s.kml"⟩
    (by with_unfolding_all decide) (by with_unfolding_all decide)
    (by with_unfolding_all decide) (by with_unfolding_all decide)
    (by with_unfolding_all rfl) ⟨"Q", 30, 121, "s.kml"⟩ (by simp)

/-- First component of the loader result, for any file list. -/
theorem load_fst (files : List KmlFile) :
    (load_all_kml_data files).1 =
      if ((files.map fileEntry).filterMap Prod.fst).isEmpty then none
      else some (((files.map fileEntry).filterMap Prod.fst).flatten) := by
  cases files with
  | nil => rfl
  | cons f fs =>
    show (if (((f :: fs).map fileEntry).filterMap Prod.fst).isEmpty then
        ((none : Option (List Marker)), ((f :: fs).map fileEntry).filterMap Prod.snd)
      else (some ((((f :: fs).map fileEntry).filterMap Prod.fst).flatten),
        ((f :: fs).map fileEntry).filterMap Prod.snd)).1 = _
    split <;> rfl

/-- Second component (the emitted messages) of the loader result on a
non-empty file list. -/
theorem load_snd (files : List KmlFile) (h : files ≠ []) :
    (load_all_kml_data files).2 = (files.map fileEntry).filterMap Prod.snd := by
  cases files with
  | nil => exact absurd rfl h
  | cons f fs =>
    show (if (((f :: fs).map fileEntry).filterMap Prod.fst).isEmpty then
        ((none : Option (List Marker)), ((f :: fs).map fileEntry).filterMap Prod.snd)
      else (some ((((f :: fs).map fileEntry).filterMap Prod.fst).flatten),
        ((f :: fs).map fileEntry).filterMap Prod.snd)).2 = _
    split <;> rfl

/-- Inversion of a successful per-file contribution. -/
theorem fileEntry_fst_some (f : KmlFile) (ch : List Marker)
    (h : (fileEntry f).1 = some ch) :
    ∃ pls, f.content = some pls ∧ parse_kml_content pls ≠ [] ∧
      ch = (parse_kml_content pls).map fun r => ⟨r.name, r.lat, r.lon, basename f.path⟩ := by
  cases hcon : f.content with
  | none => simp [fileEntry, hcon] at h
  | some pls =>
    simp only [fileEntry, hcon] at h
    by_cases he : (parse_kml_content pls).isEmpty
    · rw [if_pos he] at h
      simp at h
    · rw [if_neg he] at h
      refine ⟨pls, rfl, by simpa [List.isEmpty_iff] using he, ?_⟩
      exact (Option.some.inj h).symm

/-- C6: a malformed placemark entry is skipped without aborting the parse of
its file; an unreadable file produces a warning while the remaining files
still determine the dataset; and a run in which no file contributes any
valid point ends in the fatal error outcome with no fallback dataset. -/
theorem loader_error_handling
    (l1 l2 : List Placemark) (b : Placemark) (hb : parsePlacemark b = none)
    (fs1 fs2 : List KmlFile) (f : KmlFile) (hf : f.content = none)
    (gs : List KmlFile) (_hgs : gs ≠ []) (hge : ∀ g ∈ gs, (fileEntry g).1 = none) :
    parse_kml_content (l1 ++ b :: l2) = parse_kml_content (l1 ++ l2) ∧
    Msg.warnUnreadable (basename f.path) ∈ (load_all_kml_data (fs1 ++ f :: fs2)).2 ∧
    (load_all_kml_data (fs1 ++ f :: fs2)).1 = (load_all_kml_data (fs1 ++ fs2)).1 ∧
    appOutcome gs = AppOutcome.fatalError := by
  refine ⟨?_, ?_, ?_, ?_⟩
  · simp [parse_kml_content, List.filterMap_append, List.filterMap_cons, hb]
  · rw [load_snd _ (by simp)]
    refine List.mem_filterMap.mpr ⟨fileEntry f, List.mem_map.mpr ⟨f, by simp, rfl⟩, ?_⟩
    simp [fileEntry, hf]
  · rw [load_fst, load_fst]
    have hffst : (fileEntry f).1 = none := by simp [fileEntry, hf]
    rw [show ((fs1 ++ f :: fs2).map fileEntry).filterMap Prod.fst =
        ((fs1 ++ fs2).map fileEntry).filterMap Prod.fst from by
      simp [List.map_append, List.filterMap_append, List.filterMap_cons, hffst]]
  · unfold appOutcome
    rw [load_fst]
    rw [show ((gs.map fileEntry).filterMap Prod.fst) = [] from
      List.filterMap_eq_nil.mpr (by
        intro a ha
        obtain ⟨g, hg, rfl⟩ := List.mem_map.mp ha
        exact hge g hg)]
    rfl

/-- Witness for C6: one good file, one unreadable file, one malformed
placemark, and one run whose only file parses to nothing. -/
theorem loader_error_handling_witness :
    parse_kml_content ([⟨some "1K", some "121,25"⟩] ++ (⟨some "2K", none⟩ : Placemark) :: []) =
      parse_kml_content ([⟨some "1K", some "121,25"⟩] ++ []) ∧
    Msg.warnUnreadable (basename (⟨"bad.kml", none⟩ : KmlFile).path) ∈
      (load_all_kml_data
        ([⟨"g.kml", some [⟨some "1K", some "121,25"⟩]⟩] ++ (⟨"bad.kml", none⟩ : KmlFile) :: [])).2 ∧
    (load_all_kml_data
        ([⟨"g.kml", some [⟨some "1K", some "121,25"⟩]⟩] ++ (⟨"bad.kml", none⟩ : KmlFile) :: [])).1 =
      (load_all_kml_data ([⟨"g.kml", some [⟨some "1K", some "121,25"⟩]⟩] ++ [])).1 ∧
    appOutcome [⟨"e.kml", some []⟩] = AppOutcome.fatalError :=
  loader_error_handling [⟨some "1K", some "121,25"⟩] [] ⟨some "2K", none⟩ rfl
    [⟨"g.kml", some [⟨some "1K", some "121,25"⟩]⟩] [] ⟨"bad.kml", none⟩ rfl
    [⟨"e.kml", some []⟩] (by simp) (by with_unfolding_all decide)

/-- C9: the loader never yields an empty marker table: the result is either
`none` or a table with at least one row in which every row carries a source
field equal to the basename of the file it was parsed from. -/
theorem load_all_kml_data_never_empty (files : List KmlFile) :
    (load_all_kml_data files).1 = none ∨
    ∃ t, (load_all_kml_data files).1 = some t ∧ t ≠ [] ∧
      ∀ m ∈ t, ∃ f ∈ files, ∃ pls, f.content = some pls ∧
        ∃ r ∈ parse_kml_content pls, m = ⟨r.name, r.lat, r.lon, basename f.path⟩ := by
  rw [load_fst]
  by_cases hc : ((files.map fileEntry).filterMap Prod.fst).isEmpty
  · left
    rw [if_pos hc]
  · right
    refine ⟨((files.map fileEntry).filterMap Prod.fst).flatten, by rw [if_neg hc], ?_, ?_⟩
    · intro hflat
      have hne : (files.map fileEntry).filterMap Prod.fst ≠ [] := by
        simpa [List.isEmpty_iff] using hc
      obtain ⟨ch, hch⟩ := List.exists_mem_of_ne_nil _ hne
      have hch0 : ch = [] := (List.flatten_eq_nil_iff.mp hflat) ch hch
      obtain ⟨x, hx, hfst⟩ := List.mem_filterMap.mp hch
      obtain ⟨g, hg, rfl⟩ := List.mem_map.mp hx
      obtain ⟨pls, hcon, hpne, hcheq⟩ := fileEntry_fst_some g ch hfst
      rw [hch0] at hcheq
      exact hpne (List.map_eq_nil_iff.mp hcheq.symm)
    · intro m hm
      obtain ⟨ch, hch, hmch⟩ := List.mem_flatten.mp hm
      obtain ⟨x, hx, hfst⟩ := List.mem_filterMap.mp hch
      obtain ⟨g, hg, rfl⟩ := List.mem_map.mp hx
      obtain ⟨pls, hcon, hpne, rfl⟩ := fileEntry_fst_some g ch hfst
      obtain ⟨r, hr, rfl⟩ := List.mem_map.mp hmch
      exact ⟨g, hg, pls, hcon, r, hr, rfl⟩

/-- C10: the parser uses only the first whitespace-separated coordinate
tuple, reads its first comma component as longitude and its second as
latitude, defaults a missing name to `未命名`, and skips placemarks without
a coordinates tag or whose first tuple has fewer than two comma
components. -/
theorem parsePlacemark_spec (n : Option String) (s : String)
    (first : List Char) (rest : List (List Char))
    (p0 p1 : List Char) (ps : List (List Char)) (lon lat : ℚ)
    (t : String) (tFirst : List Char) (tRest : List (List Char)) (q0 : List Char)
    (hsplit : pySplitWS (pyStrip s.data) = first :: rest)
    (hparts : pySplitOn (fun c => c = ',') first = p0 :: p1 :: ps)
    (hlon : pyFloat p0 = some lon)
    (hlat : pyFloat p1 = some lat)
    (htsplit : pySplitWS (pyStrip t.data) = tFirst :: tRest)
    (htparts : pySplitOn (fun c => c = ',') tFirst = [q0]) :
    parsePlacemark ⟨n, some s⟩ = some ⟨n.getD "未命名", lat, lon⟩ ∧
    parsePlacemark ⟨n, none⟩ = none ∧
    parsePlacemark ⟨n, some t⟩ = none := by
  refine ⟨?_, rfl, ?_⟩
  · simp only [parsePlacemark, hsplit, hparts, hlon, hlat]
  · simp only [parsePlacemark, htsplit, htparts]

/-- Witness for C10: a two-tuple coordinates text, a missing coordinates
tag, and a one-component tuple. -/
theorem parsePlacemark_spec_witness :
    parsePlacemark ⟨none, some "121.5,25.0,0 122,26,0"⟩ =
      some ⟨"未命名", 25, mkRat 1215 10⟩ ∧
    parsePlacemark ⟨none, none⟩ = none ∧
    parsePlacemark ⟨none, some "25.0"⟩ = none :=
  parsePlacemark_spec none "121.5,25.0,0 122,26,0"
    ("121.5,25.0,0".data) ["122,26,0".data]
    ("121.5".data) ("25.0".data) ["0".data] (mkRat 1215 10) 25
    "25.0" ("25.0".data) [] ("25.0".data)
    (by with_unfolding_all rfl) (by with_unfolding_all rfl)
    (by with_unfolding_all rfl) (by with_unfolding_all rfl)
    (by with_unfolding_all rfl) (by with_unfolding_all rfl)

end HighwayPrecision
